import Mathlib

/-!
Verification of the order pricing, loyalty and payment settlement core of the
dry-cleaning POS backend (`backend/server.py`).

Embedding conventions:
* Python `float` is embedded as `ℚ` (the arithmetic in the source is plain
  field arithmetic on small monetary values), Python `int` as `ℤ`.
* Python `int(x)` truncates toward zero: `pyInt`.
* Python `round(x, 2)` is embedded as `round2`; Python rounds the nearest
  float half-to-even while `round2` rounds half up, and the two agree at every
  non-tie point — no theorem below depends on a half-cent tie.
* Python `sorted(xs, key=k, reverse=True)` is a stable descending sort:
  `sortDesc` (insertion sort that keeps earlier elements first on equal keys).
* The Mongo collections are embedded as lists; `find_one` takes the first
  match (`findFirst`) and `update_one` rewrites the first match
  (`updateFirst`), matching Mongo's single-document semantics.
* Externally generated data (UUIDs, timestamps, gateway session ids, the
  authenticated actor) are passed as explicit parameters.
-/

namespace DryCleaning

/-- Python `int(x)` conversion: truncation toward zero. -/
def pyInt (q : ℚ) : ℤ := if 0 ≤ q then ⌊q⌋ else -⌊-q⌋

/-- Python `round(x, 2)`: round to two decimal places. -/
def round2 (q : ℚ) : ℚ := (round (100 * q) : ℤ) / 100

/-- First element of the list satisfying `p` (Mongo `find_one`). -/
def findFirst (p : α → Bool) : List α → Option α
  | [] => none
  | a :: l => if p a then some a else findFirst p l

/-- Rewrite the first element satisfying `p` (Mongo `update_one`). -/
def updateFirst (p : α → Bool) (f : α → α) : List α → List α
  | [] => []
  | a :: l => if p a then f a :: l else a :: updateFirst p f l

/-- Stable insertion of `a` into a descending-by-`key` list: `a` is placed
before the first element whose key is `≤ key a`, so on equal keys the element
already in the list stays behind `a` — matching how Python's stable
`sorted(..., reverse=True)` orders an earlier element before later ones. -/
def insertDesc (key : α → ℤ) (a : α) : List α → List α
  | [] => [a]
  | b :: l => if key b ≤ key a then a :: b :: l else b :: insertDesc key a l

/-- Python `sorted(xs, key=key, reverse=True)`: stable descending sort. -/
def sortDesc (key : α → ℤ) : List α → List α
  | [] => []
  | a :: l => insertDesc key a (sortDesc key l)

/-- First element of `l` whose key is `≤ q` — the `for … if … break` scan
pattern used for tier selection in the source. -/
def scanFirst (key : α → ℤ) (q : ℤ) : List α → Option α
  | [] => none
  | a :: l => if key a ≤ q then some a else scanFirst key q l

/-! ### Enumerations (`server.py` lines 47–93) -/

inductive CustomerType where
  | retail
  | business
deriving DecidableEq, Repr

inductive PaymentMethod where
  | cash
  | card
  | bank_transfer
  | pay_on_collection
  | invoice
deriving DecidableEq, Repr

inductive PaymentStatus where
  | pending
  | completed
  | failed
  | refunded
deriving DecidableEq, Repr

inductive OrderStatus where
  | cleaning
  | ready
  | collected
  | delivered
  | cancelled
deriving DecidableEq, Repr

inductive LoyaltyTxType where
  | earned
  | redeemed
  | expired
  | adjustment
deriving DecidableEq, Repr

/-! ### Data model -/

/-- The `VolumeDiscount` pydantic model. -/
structure VolumeDiscount where
  min_quantity : ℤ
  discount_percent : ℚ
deriving DecidableEq, Repr

/-- The `LoyaltyTier` pydantic model. -/
structure LoyaltyTier where
  name : String
  min_points : ℤ
  benefits : String
  multiplier : ℚ := 1
deriving DecidableEq, Repr

/-- The `LoyaltySettings` pydantic model, with the source's defaults. -/
structure LoyaltySettings where
  enabled : Bool := true
  points_per_dollar : ℚ := 1
  redemption_rate : ℚ := 1/20
  min_redemption_points : ℤ := 100
  max_redemption_percent : ℚ := 50
  points_expiry_days : ℤ := 365
  exclude_business_customers : Bool := true
  tiers : List LoyaltyTier := []
deriving DecidableEq, Repr

/-- Stored customer document (`CustomerBase` + the server-maintained fields
added in `create_customer`). -/
structure Customer where
  id : String
  name : String
  phone : String
  customer_type : CustomerType := .retail
  discount_percent : ℚ := 0
  require_advance_payment : Bool := false
  is_blacklisted : Bool := false
  loyalty_excluded : Bool := false
  loyalty_points : ℤ := 0
  total_orders : ℤ := 0
  total_spent : ℚ := 0
  average_order_value : ℚ := 0
  last_order_date : Option String := none
deriving DecidableEq, Repr

/-- The `OrderItem` pydantic model (the fields the core logic touches). -/
structure OrderItem where
  item_id : String
  item_name : String
  quantity : ℤ
  unit_price : ℚ
  total_price : ℚ
  discount_applied : ℚ := 0
  volume_discount_percent : ℚ := 0
deriving DecidableEq, Repr

/-- Stored order document as built by `create_order`. -/
structure Order where
  id : String
  order_number : String
  customer_id : String
  customer_name : String
  customer_phone : String
  customer_type : CustomerType
  items : List OrderItem
  subtotal : ℚ
  tax : ℚ
  customer_discount_percent : ℚ
  customer_discount_amount : ℚ
  volume_discount_amount : ℚ
  manual_discount : ℚ
  loyalty_points_redeemed : ℤ
  loyalty_discount_amount : ℚ
  loyalty_points_earned : ℤ
  total : ℚ
  status : OrderStatus
  payment_status : PaymentStatus
  payment_method : Option PaymentMethod
  created_at : String
  created_by : String
deriving DecidableEq, Repr

/-- Loyalty-ledger entry (`loyalty_transactions` collection). -/
structure LoyaltyTransaction where
  id : String
  customer_id : String
  order_id : Option String
  type : LoyaltyTxType
  points : ℤ
  description : String
  balance_after : ℤ
  created_at : String
  adjusted_by : Option String := none
deriving DecidableEq, Repr

/-- Payment-attempt document (`payment_transactions` collection). -/
structure PaymentTransaction where
  id : String
  order_id : String
  amount : ℚ
  payment_method : PaymentMethod
  status : PaymentStatus
  stripe_session_id : Option String := none
  checkout_url : Option String := none
  created_at : String
deriving DecidableEq, Repr

/-- The document store, restricted to the collections the core touches.
The loyalty-settings singleton is carried directly (the source reads the
`loyalty_settings` document and falls back to the same defaults). -/
structure DB where
  customers : List Customer
  orders : List Order
  payment_transactions : List PaymentTransaction
  loyalty_transactions : List LoyaltyTransaction
  loyalty_settings : LoyaltySettings
deriving DecidableEq, Repr

def findCustomer (db : DB) (cid : String) : Option Customer :=
  findFirst (fun c => c.id == cid) db.customers

def findOrder (db : DB) (oid : String) : Option Order :=
  findFirst (fun o => o.id == oid) db.orders

/-! ### `calculate_volume_discount` (`server.py` lines 525–535) -/

/-- Embeds `calculate_volume_discount(item_id, quantity, volume_discounts)`:
descending scan over tiers sorted by `min_quantity`, first tier whose
threshold the quantity meets wins, `0.0` otherwise. -/
def calculate_volume_discount (item_id : String) (quantity : ℤ)
    (volume_discounts : List VolumeDiscount) : ℚ :=
  if volume_discounts = [] then 0
  else
    match scanFirst (fun vd => vd.min_quantity) quantity
        (sortDesc (fun vd => vd.min_quantity) volume_discounts) with
    | some vd => vd.discount_percent
    | none => 0

/-! ### `award_loyalty_points` (`server.py` lines 538–603) -/

/-- The tier-multiplier loop inlined in `award_loyalty_points`: scan the tiers
sorted descending by `min_points`, first tier whose `min_points` the current
balance meets wins, default multiplier `1.0`. -/
def tier_multiplier (tiers : List LoyaltyTier) (current_points : ℤ) : ℚ :=
  match scanFirst (fun t => t.min_points) current_points
      (sortDesc (fun t => t.min_points) tiers) with
  | some t => t.multiplier
  | none => 1

/-- Embeds `award_loyalty_points(customer_id, order_id, amount, order_number)`.
`txn_id` and `now` stand for the generated UUID and timestamp. -/
def award_loyalty_points (customer_id order_id : String) (amount : ℚ)
    (order_number : String) (txn_id now : String) (db : DB) : DB :=
  match findCustomer db customer_id with
  | none => db
  | some customer =>
    if customer.loyalty_excluded then db
    else
      let settings := db.loyalty_settings
      if !settings.enabled then db
      else if customer.customer_type == .business && settings.exclude_business_customers then db
      else
        let points_per_dollar := settings.points_per_dollar
        let current_points := customer.loyalty_points
        let multiplier := tier_multiplier settings.tiers current_points
        let points_earned := pyInt (amount * points_per_dollar * multiplier)
        if points_earned ≤ 0 then db
        else
          let new_balance := current_points + points_earned
          { db with
            customers := updateFirst (fun c => c.id == customer_id)
              (fun c => { c with loyalty_points := new_balance }) db.customers
            orders := updateFirst (fun o => o.id == order_id)
              (fun o => { o with loyalty_points_earned := points_earned }) db.orders
            loyalty_transactions := db.loyalty_transactions ++
              [{ id := txn_id
                 customer_id := customer_id
                 order_id := some order_id
                 type := .earned
                 points := points_earned
                 description := "Earned from order " ++ order_number
                 balance_after := new_balance
                 created_at := now }] }

/-! ### `adjust_loyalty_points` (`server.py` lines 848–893) -/

inductive AdjustError where
  | NotAuthorized
  | CustomerNotFound
deriving DecidableEq, Repr

/-- Endpoint `POST /customers/{id}/loyalty/adjust`. Returns the previous and new
balances on success. `actor_id`/`actor_role` are the authenticated user. -/
def adjust_loyalty_points (customer_id : String) (adjustment : ℤ) (reason : String)
    (actor_id actor_role : String) (txn_id now : String) (db : DB) :
    Except AdjustError (DB × ℤ × ℤ) :=
  if ¬(actor_role = "admin" ∨ actor_role = "manager") then .error .NotAuthorized
  else
    match findCustomer db customer_id with
    | none => .error .CustomerNotFound
    | some customer =>
      let current_points := customer.loyalty_points
      let new_points := max 0 (current_points + adjustment)
      let db1 : DB :=
        { db with
          customers := updateFirst (fun c => c.id == customer_id)
            (fun c => { c with loyalty_points := new_points }) db.customers
          loyalty_transactions := db.loyalty_transactions ++
            [{ id := txn_id
               customer_id := customer_id
               order_id := none
               type := .adjustment
               points := adjustment
               description := "Manual adjustment: " ++ reason
               balance_after := new_points
               created_at := now
               adjusted_by := some actor_id }] }
      .ok (db1, current_points, new_points)

/-! ### `calculate_loyalty_redemption` (`server.py` lines 896–950) -/

inductive RedemptionError where
  | CustomerNotFound
  | ProgramDisabled
  | CustomerExcluded
  | InsufficientPoints
  | BelowMinimum
deriving DecidableEq, Repr

structure RedemptionResult where
  points_available : ℤ
  points_requested : ℤ
  points_to_use : ℤ
  discount_value : ℚ
  max_discount_allowed : ℚ
  order_total : ℚ
  new_total : ℚ
  remaining_points : ℤ
deriving DecidableEq, Repr

/-- Endpoint `POST /loyalty/calculate-redemption` — dry-run redemption preview. -/
def calculate_loyalty_redemption (customer_id : String) (order_total : ℚ)
    (points_to_redeem : ℤ) (db : DB) : Except RedemptionError RedemptionResult :=
  match findCustomer db customer_id with
  | none => .error .CustomerNotFound
  | some customer =>
    let settings := db.loyalty_settings
    if !settings.enabled then .error .ProgramDisabled
    else
      let is_excluded := customer.loyalty_excluded
      let is_business := customer.customer_type == .business
      if is_excluded || (is_business && settings.exclude_business_customers) then
        .error .CustomerExcluded
      else
        let available_points := customer.loyalty_points
        let min_points := settings.min_redemption_points
        let redemption_rate := settings.redemption_rate
        let max_percent := settings.max_redemption_percent
        if available_points < points_to_redeem then .error .InsufficientPoints
        else if points_to_redeem < min_points then .error .BelowMinimum
        else
          let discount_value := (points_to_redeem : ℚ) * redemption_rate
          let max_discount := order_total * (max_percent / 100)
          let actual_discount := min discount_value max_discount
          let actual_points_used := pyInt (actual_discount / redemption_rate)
          .ok { points_available := available_points
                points_requested := points_to_redeem
                points_to_use := actual_points_used
                discount_value := round2 actual_discount
                max_discount_allowed := round2 max_discount
                order_total := order_total
                new_total := round2 (order_total - actual_discount)
                remaining_points := available_points - actual_points_used }

/-! ### `create_order` (`server.py` lines 1323–1423) -/

inductive CreateOrderError where
  | Blacklisted
  | InsufficientPoints
deriving DecidableEq, Repr

/-- The `OrderCreate` request body (the fields the core logic uses). -/
structure OrderCreate where
  customer_id : String
  customer_name : String
  customer_phone : String
  customer_type : CustomerType := .retail
  items : List OrderItem
  subtotal : ℚ
  tax : ℚ
  customer_discount_percent : ℚ := 0
  customer_discount_amount : ℚ := 0
  volume_discount_amount : ℚ := 0
  manual_discount : ℚ := 0
  loyalty_points_redeemed : ℤ := 0
  loyalty_discount_amount : ℚ := 0
  total : ℚ
deriving DecidableEq, Repr

/-- Endpoint `POST /orders`. Here `order_id`, `order_number`, `now`, `txn_id` stand for the
generated UUIDs/timestamp; `created_by` is the authenticated user id.
The source raises before its first write on both error paths, so the input
`db` is untouched whenever the result is an error. -/
def create_order (order : OrderCreate)
    (order_id order_number now txn_id created_by : String) (db : DB) :
    Except CreateOrderError (DB × Order) :=
  let customer? := findCustomer db order.customer_id
  if (customer?.map (fun c => c.is_blacklisted)).getD false then .error .Blacklisted
  else
    let loyalty_points_redeemed := order.loyalty_points_redeemed
    let loyalty_discount_amount := order.loyalty_discount_amount
    let current_points := (customer?.map (fun c => c.loyalty_points)).getD 0
    if 0 < loyalty_points_redeemed ∧ current_points < loyalty_points_redeemed then
      .error .InsufficientPoints
    else
      let db1 : DB :=
        if 0 < loyalty_points_redeemed then
          { db with
            customers := updateFirst (fun c => c.id == order.customer_id)
              (fun c => { c with loyalty_points := c.loyalty_points - loyalty_points_redeemed })
              db.customers
            loyalty_transactions := db.loyalty_transactions ++
              [{ id := txn_id
                 customer_id := order.customer_id
                 order_id := some order_id
                 type := .redeemed
                 points := -loyalty_points_redeemed
                 description := "Redeemed for order " ++ order_number
                 balance_after := current_points - loyalty_points_redeemed
                 created_at := now }] }
        else db
      let doc : Order :=
        { id := order_id
          order_number := order_number
          customer_id := order.customer_id
          customer_name := order.customer_name
          customer_phone := order.customer_phone
          customer_type := order.customer_type
          items := order.items
          subtotal := order.subtotal
          tax := order.tax
          customer_discount_percent := order.customer_discount_percent
          customer_discount_amount := order.customer_discount_amount
          volume_discount_amount := order.volume_discount_amount
          manual_discount := order.manual_discount
          loyalty_points_redeemed := loyalty_points_redeemed
          loyalty_discount_amount := loyalty_discount_amount
          loyalty_points_earned := 0
          total := order.total
          status := .cleaning
          payment_status := .pending
          payment_method := none
          created_at := now
          created_by := created_by }
      let new_total_spent := (customer?.map (fun c => c.total_spent)).getD 0 + order.total
      let new_total_orders := (customer?.map (fun c => c.total_orders)).getD 0 + 1
      let new_avg := if 0 < new_total_orders then new_total_spent / (new_total_orders : ℚ) else 0
      let db2 : DB :=
        { db1 with
          orders := db1.orders ++ [doc]
          customers := updateFirst (fun c => c.id == order.customer_id)
            (fun c => { c with
               total_orders := new_total_orders
               total_spent := new_total_spent
               average_order_value := round2 new_avg
               last_order_date := some now }) db1.customers }
      .ok (db2, doc)

/-! ### `create_payment` (`server.py` lines 1574–1665) -/

inductive CreatePaymentError where
  | OrderNotFound
  | AlreadyPaid
  | InvalidPaymentMethod
deriving DecidableEq, Repr

structure PaymentCreate where
  order_id : String
  amount : ℚ
  payment_method : PaymentMethod
deriving DecidableEq, Repr

/-- Endpoint `POST /payments`. Here `payment_id`/`now` are the generated UUID/timestamp;
`gateway_session_id`/`gateway_checkout_url` model the external checkout
session returned by the gateway for the card branch; `award_txn_id` is the
UUID the accrual would record. -/
def create_payment (payment : PaymentCreate) (payment_id now : String)
    (gateway_session_id gateway_checkout_url : String) (award_txn_id : String)
    (db : DB) : Except CreatePaymentError (DB × PaymentTransaction) :=
  match findOrder db payment.order_id with
  | none => .error .OrderNotFound
  | some order =>
    if order.payment_status = .completed then .error .AlreadyPaid
    else if payment.payment_method = .invoice ∧ order.customer_type ≠ .business then
      .error .InvalidPaymentMethod
    else
      let payment_doc : PaymentTransaction :=
        { id := payment_id
          order_id := payment.order_id
          amount := payment.amount
          payment_method := payment.payment_method
          status := .pending
          stripe_session_id := none
          checkout_url := none
          created_at := now }
      match payment.payment_method with
      | .card =>
        let payment_doc :=
          { payment_doc with
            stripe_session_id := some gateway_session_id
            checkout_url := some gateway_checkout_url }
        .ok ({ db with payment_transactions := db.payment_transactions ++ [payment_doc] },
             payment_doc)
      | .cash | .bank_transfer =>
        let payment_doc := { payment_doc with status := .completed }
        let db1 : DB :=
          { db with
            orders := updateFirst (fun o => o.id == payment.order_id)
              (fun o => { o with
                 payment_status := .completed
                 payment_method := some payment.payment_method }) db.orders }
        let db2 := award_loyalty_points order.customer_id payment.order_id payment.amount
          order.order_number award_txn_id now db1
        .ok ({ db2 with payment_transactions := db2.payment_transactions ++ [payment_doc] },
             payment_doc)
      | .pay_on_collection =>
        let db1 : DB :=
          { db with
            orders := updateFirst (fun o => o.id == payment.order_id)
              (fun o => { o with payment_method := some .pay_on_collection }) db.orders }
        .ok ({ db1 with payment_transactions := db1.payment_transactions ++ [payment_doc] },
             payment_doc)
      | .invoice =>
        let db1 : DB :=
          { db with
            orders := updateFirst (fun o => o.id == payment.order_id)
              (fun o => { o with payment_method := some .invoice }) db.orders }
        .ok ({ db1 with payment_transactions := db1.payment_transactions ++ [payment_doc] },
             payment_doc)

/-! ### `stripe_webhook` (`server.py` lines 1705–1741) -/

/-- The gateway's parsed webhook payload (`handle_webhook` output). -/
structure WebhookResponse where
  payment_status : String
  session_id : String
deriving DecidableEq, Repr

/-- Endpoint `POST /webhook/stripe`: on a `paid` status, completes the stored pending
transaction and the order, guarded by the transaction not already being
`COMPLETED`. (Note: unlike the poll path, this handler performs no loyalty
accrual.) The handler acks the gateway unconditionally, so only the database
effect is modelled. -/
def stripe_webhook (webhook_response : WebhookResponse) (db : DB) : DB :=
  if webhook_response.payment_status = "paid" then
    match findFirst (fun p => p.stripe_session_id == some webhook_response.session_id)
        db.payment_transactions with
    | none => db
    | some payment =>
      if payment.status ≠ .completed then
        { db with
          payment_transactions := updateFirst
            (fun p => p.stripe_session_id == some webhook_response.session_id)
            (fun p => { p with status := .completed }) db.payment_transactions
          orders := updateFirst (fun o => o.id == payment.order_id)
            (fun o => { o with
               payment_status := .completed
               payment_method := some .card }) db.orders }
      else db
  else db

/-! ### Sequencing harness: the loyalty-relevant entry points as total state
transformers (an HTTP error leaves the store untouched, as in the source where
every `raise` precedes the first write of its operation). -/

/-- Endpoint `POST /orders` as a total `DB` transformer. -/
def applyCreate (order : OrderCreate)
    (order_id order_number now txn_id created_by : String) (db : DB) : DB :=
  match create_order order order_id order_number now txn_id created_by db with
  | .ok (db', _) => db'
  | .error _ => db

/-- Endpoint `POST /payments` as a total `DB` transformer. -/
def applyPayment (payment : PaymentCreate) (payment_id now : String)
    (gateway_session_id gateway_checkout_url award_txn_id : String) (db : DB) : DB :=
  match create_payment payment payment_id now gateway_session_id gateway_checkout_url
      award_txn_id db with
  | .ok (db', _) => db'
  | .error _ => db

/-- Endpoint `POST /customers/{id}/loyalty/adjust` as a total `DB` transformer. -/
def applyAdjust (customer_id : String) (adjustment : ℤ)
    (reason actor_id actor_role txn_id now : String) (db : DB) : DB :=
  match adjust_loyalty_points customer_id adjustment reason actor_id actor_role
      txn_id now db with
  | .ok (db', _, _) => db'
  | .error _ => db

/-- One loyalty-relevant operation (order creation with its optional
redemption, a payment with its accrual-on-completion, a manual adjustment). -/
inductive LoyaltyOp where
  | createOrder (order : OrderCreate)
      (order_id order_number now txn_id created_by : String)
  | payment (payment : PaymentCreate)
      (payment_id now gateway_session_id gateway_checkout_url award_txn_id : String)
  | adjust (customer_id : String) (adjustment : ℤ)
      (reason actor_id actor_role txn_id now : String)

def applyOp : LoyaltyOp → DB → DB
  | .createOrder o a b c d e, db => applyCreate o a b c d e db
  | .payment p a b c d e, db => applyPayment p a b c d e db
  | .adjust cid n a b c d e, db => applyAdjust cid n a b c d e db

def applyOps (ops : List LoyaltyOp) (db : DB) : DB :=
  ops.foldl (fun d op => applyOp op d) db

/-- Sum of the signed point deltas of one customer's ledger entries. -/
def ledger_sum (customer_id : String) (l : List LoyaltyTransaction) : ℤ :=
  ((l.filter (fun t => t.customer_id == customer_id)).map (fun t => t.points)).sum

/-- Replaying the customer's ledger entries (appended in `created_at` order)
reproduces the stored `loyalty_points` balance. -/
def replayOk (customer_id : String) (db : DB) : Prop :=
  ∀ c, findCustomer db customer_id = some c →
    ledger_sum customer_id db.loyalty_transactions = c.loyalty_points

/-- A manual adjustment applied at this state does not hit the `max(0, ·)`
clamp (the clamp is what loses ledger/balance agreement). -/
def noClampOp : LoyaltyOp → DB → Prop
  | .adjust cid n _ _ _ _ _, db =>
    ∀ c, findCustomer db cid = some c → 0 ≤ c.loyalty_points + n
  | _, _ => True

/-- No adjustment anywhere along the trace hits the clamp. -/
def noClampSeq : List LoyaltyOp → DB → Prop
  | [], _ => True
  | op :: ops, db => noClampOp op db ∧ noClampSeq ops (applyOp op db)

/-- A batch of order creations (ids/timestamps irrelevant to the aggregates). -/
def createOps (reqs : List OrderCreate) : List LoyaltyOp :=
  reqs.map (fun r => .createOrder r "" "" "" "" "")

/-- Every creation in the batch succeeds at its point in the trace (the
blacklist and insufficient-points guards pass; redeeming creations are
included). -/
def createSeqOk : List OrderCreate → DB → Prop
  | [], _ => True
  | r :: reqs, db =>
    (∃ p, create_order r "" "" "" "" "" db = .ok p) ∧
    createSeqOk reqs (applyCreate r "" "" "" "" "" db)

/-! ### Concrete stores used by the witnesses and counterexamples -/

def tiersEx : List LoyaltyTier :=
  [{ name := "Silver", min_points := 100, benefits := "", multiplier := 3/2 },
   { name := "Gold", min_points := 200, benefits := "", multiplier := 2 }]

def settingsEx : LoyaltySettings := { tiers := tiersEx }

def alice : Customer :=
  { id := "alice", name := "Alice", phone := "1", loyalty_points := 200 }

def bob : Customer :=
  { id := "bob", name := "Bob", phone := "2", loyalty_points := 500 }

def carol : Customer :=
  { id := "carol", name := "Carol", phone := "3", loyalty_points := 50 }

def dave : Customer :=
  { id := "dave", name := "Dave", phone := "4", is_blacklisted := true }

def eve : Customer :=
  { id := "eve", name := "Eve", phone := "5" }

def frank : Customer :=
  { id := "frank", name := "Frank", phone := "6" }

def orderEx : Order :=
  { id := "o1", order_number := "DC1", customer_id := "alice"
    customer_name := "Alice", customer_phone := "1", customer_type := .retail
    items := [], subtotal := 10, tax := 0
    customer_discount_percent := 0, customer_discount_amount := 0
    volume_discount_amount := 0, manual_discount := 0
    loyalty_points_redeemed := 0, loyalty_discount_amount := 0
    loyalty_points_earned := 0, total := 10
    status := .cleaning, payment_status := .pending, payment_method := none
    created_at := "t0", created_by := "u1" }

def orderBiz : Order :=
  { orderEx with id := "o2", order_number := "DC2", customer_id := "bob"
                 customer_name := "Bob", customer_type := .business }

def cardTx : PaymentTransaction :=
  { id := "p1", order_id := "o1", amount := 50, payment_method := .card
    status := .pending, stripe_session_id := some "sess1"
    checkout_url := some "http://x", created_at := "t1" }

def dbAward : DB :=
  { customers := [alice], orders := [orderEx], payment_transactions := []
    loyalty_transactions := [], loyalty_settings := settingsEx }

def dbRedeem : DB :=
  { customers := [bob], orders := [], payment_transactions := []
    loyalty_transactions := [], loyalty_settings := settingsEx }

def dbOrders : DB :=
  { customers := [carol, dave], orders := [], payment_transactions := []
    loyalty_transactions := [], loyalty_settings := settingsEx }

def dbPay : DB :=
  { customers := [alice, bob], orders := [orderEx, orderBiz]
    payment_transactions := [], loyalty_transactions := []
    loyalty_settings := settingsEx }

def dbWebhook : DB :=
  { customers := [{ alice with loyalty_points := 0 }], orders := [orderEx]
    payment_transactions := [cardTx], loyalty_transactions := []
    loyalty_settings := {} }

def webhookPaid : WebhookResponse := { payment_status := "paid", session_id := "sess1" }

def dbAdj : DB :=
  { customers := [eve], orders := [], payment_transactions := []
    loyalty_transactions := [], loyalty_settings := settingsEx }

def dbAvg : DB :=
  { customers := [frank], orders := [], payment_transactions := []
    loyalty_transactions := [], loyalty_settings := settingsEx }

/-- Order-creation request used by the aggregate examples. -/
def reqFor (cid : String) (t : ℚ) : OrderCreate :=
  { customer_id := cid, customer_name := "n", customer_phone := "p"
    items := [], subtotal := t, tax := 0, total := t }

/-! ## Lemmas about the embedding helpers -/

theorem findFirst_eq_none {p : α → Bool} {l : List α} :
    findFirst p l = none ↔ ∀ a ∈ l, p a = false := by
  induction l with
  | nil => simp [findFirst]
  | cons a l ih =>
    by_cases h : p a <;> simp [findFirst, h, ih]

theorem updateFirst_eq_self {p : α → Bool} {f : α → α} {l : List α}
    (h : ∀ a ∈ l, p a = false) : updateFirst p f l = l := by
  induction l with
  | nil => rfl
  | cons a l ih =>
    have ha := h a (List.mem_cons_self a l)
    simp [updateFirst, ha, ih fun b hb => h b (List.mem_cons_of_mem a hb)]

theorem findFirst_updateFirst {p : α → Bool} {f : α → α}
    (hf : ∀ a, p (f a) = p a) :
    ∀ l : List α, findFirst p (updateFirst p f l) = (findFirst p l).map f
  | [] => rfl
  | a :: l => by
    by_cases h : p a
    · simp [findFirst, updateFirst, h, hf a]
    · simp [findFirst, updateFirst, h, findFirst_updateFirst hf l]

theorem findFirst_updateFirst_other {p q : α → Bool} {f : α → α}
    (hqf : ∀ a, q (f a) = q a) (hdisj : ∀ a, p a = true → q a = false) :
    ∀ l : List α, findFirst q (updateFirst p f l) = findFirst q l
  | [] => rfl
  | a :: l => by
    by_cases h : p a
    · simp [findFirst, updateFirst, h, hqf a, hdisj a h]
    · by_cases h2 : q a <;>
        simp [findFirst, updateFirst, h, h2, findFirst_updateFirst_other hqf hdisj l]

theorem mem_insertDesc {key : α → ℤ} {a b : α} : ∀ {l : List α},
    b ∈ insertDesc key a l ↔ b = a ∨ b ∈ l
  | [] => by simp [insertDesc]
  | c :: l => by
    by_cases h : key c ≤ key a
    · simp [insertDesc, h]
    · simp only [insertDesc, if_neg h, List.mem_cons, mem_insertDesc (l := l)]
      tauto

theorem pairwise_insertDesc {key : α → ℤ} {a : α} : ∀ {l : List α},
    l.Pairwise (fun x y => key y ≤ key x) →
    (insertDesc key a l).Pairwise (fun x y => key y ≤ key x)
  | [], _ => by simp [insertDesc]
  | c :: l, h => by
    rcases List.pairwise_cons.1 h with ⟨hc, hl⟩
    by_cases hca : key c ≤ key a
    · simp only [insertDesc, if_pos hca]
      refine List.pairwise_cons.2 ⟨?_, h⟩
      intro x hx
      rcases List.mem_cons.1 hx with rfl | hx
      · exact hca
      · exact le_trans (hc x hx) hca
    · simp only [insertDesc, if_neg hca]
      refine List.pairwise_cons.2 ⟨?_, pairwise_insertDesc hl⟩
      intro x hx
      rcases mem_insertDesc.1 hx with rfl | hx
      · exact le_of_lt (lt_of_not_le hca)
      · exact hc x hx

theorem mem_sortDesc {key : α → ℤ} {b : α} : ∀ {l : List α},
    b ∈ sortDesc key l ↔ b ∈ l
  | [] => Iff.rfl
  | a :: l => by
    simp only [sortDesc, mem_insertDesc, List.mem_cons, mem_sortDesc (l := l)]

theorem pairwise_sortDesc (key : α → ℤ) : ∀ l : List α,
    (sortDesc key l).Pairwise (fun x y => key y ≤ key x)
  | [] => List.Pairwise.nil
  | a :: l => pairwise_insertDesc (pairwise_sortDesc key l)

theorem scanFirst_eq_none {key : α → ℤ} {q : ℤ} {l : List α} :
    scanFirst key q l = none ↔ ∀ a ∈ l, ¬ key a ≤ q := by
  induction l with
  | nil => simp [scanFirst]
  | cons a l ih =>
    by_cases h : key a ≤ q
    · simp [scanFirst, h]
    · simp only [scanFirst, if_neg h, ih, List.mem_cons]
      constructor
      · intro hall b hb
        rcases hb with rfl | hb
        · exact h
        · exact hall b hb
      · intro hall b hb
        exact hall b (Or.inr hb)

theorem scanFirst_spec {key : α → ℤ} {q : ℤ} {a : α} : ∀ {l : List α},
    l.Pairwise (fun x y => key y ≤ key x) → scanFirst key q l = some a →
    a ∈ l ∧ key a ≤ q ∧ ∀ b ∈ l, key b ≤ q → key b ≤ key a
  | [], _, h => by simp [scanFirst] at h
  | c :: l, hp, h => by
    rcases List.pairwise_cons.1 hp with ⟨hc, hl⟩
    by_cases hcq : key c ≤ q
    · simp only [scanFirst, if_pos hcq, Option.some.injEq] at h
      subst h
      refine ⟨List.mem_cons_self _ _, hcq, ?_⟩
      intro b hb _
      rcases List.mem_cons.1 hb with rfl | hb
      · exact le_refl _
      · exact hc b hb
    · simp only [scanFirst, if_neg hcq] at h
      obtain ⟨hmem, hle, hmax⟩ := scanFirst_spec hl h
      refine ⟨List.mem_cons_of_mem c hmem, hle, ?_⟩
      intro b hb hbq
      rcases List.mem_cons.1 hb with rfl | hb
      · exact absurd hbq hcq
      · exact hmax b hb hbq

/-- Descending scan over the stable sort returns `none` iff nothing meets the
threshold. -/
theorem scan_sortDesc_none {key : α → ℤ} {q : ℤ} {l : List α} :
    scanFirst key q (sortDesc key l) = none ↔ ∀ a ∈ l, ¬ key a ≤ q := by
  rw [scanFirst_eq_none]
  constructor
  · intro h a ha
    exact h a (mem_sortDesc.2 ha)
  · intro h a ha
    exact h a (mem_sortDesc.1 ha)

/-- Descending scan over the stable sort returns a list element that meets the
threshold and whose key is maximal among those that do. -/
theorem scan_sortDesc_some {key : α → ℤ} {q : ℤ} {l : List α} {a : α}
    (h : scanFirst key q (sortDesc key l) = some a) :
    a ∈ l ∧ key a ≤ q ∧ ∀ b ∈ l, key b ≤ q → key b ≤ key a := by
  obtain ⟨hmem, hle, hmax⟩ := scanFirst_spec (pairwise_sortDesc key l) h
  exact ⟨mem_sortDesc.1 hmem, hle, fun b hb hbq => hmax b (mem_sortDesc.2 hb) hbq⟩

theorem pyInt_eq_floor {q : ℚ} (h : 0 ≤ q) : pyInt q = ⌊q⌋ := by
  simp [pyInt, h]

theorem pyInt_eq_floor_of_pos {q : ℚ} (h : 0 < pyInt q) : pyInt q = ⌊q⌋ := by
  by_cases h0 : 0 ≤ q
  · exact pyInt_eq_floor h0
  · exfalso
    have hq : 0 < -q := by
      push_neg at h0
      linarith
    have hfl : (0:ℤ) ≤ ⌊-q⌋ := Int.floor_nonneg.2 (le_of_lt hq)
    have : pyInt q = -⌊-q⌋ := by simp [pyInt, h0]
    omega

theorem ledger_sum_append (cid : String) (l1 l2 : List LoyaltyTransaction) :
    ledger_sum cid (l1 ++ l2) = ledger_sum cid l1 + ledger_sum cid l2 := by
  simp [ledger_sum, List.filter_append]

theorem ledger_sum_single (cid : String) (t : LoyaltyTransaction) :
    ledger_sum cid [t] = if t.customer_id == cid then t.points else 0 := by
  by_cases h : t.customer_id == cid <;> simp [ledger_sum, List.filter, h]

/-- Restatement of `findFirst_updateFirst` with the side condition last, so
`simp`/`rw` can determine `p`, `f`, `l` from the goal first. -/
theorem findFirst_updateFirst' (p : α → Bool) (f : α → α) (l : List α)
    (hf : ∀ a, p (f a) = p a) :
    findFirst p (updateFirst p f l) = (findFirst p l).map f :=
  findFirst_updateFirst hf l

/-- Restatement of `findFirst_updateFirst_other` with the side conditions
last. -/
theorem findFirst_updateFirst_other' (p q : α → Bool) (f : α → α) (l : List α)
    (hqf : ∀ a, q (f a) = q a) (hdisj : ∀ a, p a = true → q a = false) :
    findFirst q (updateFirst p f l) = findFirst q l :=
  findFirst_updateFirst_other hqf hdisj l

theorem findCustomer_mk (cs : List Customer) (os : List Order)
    (ps : List PaymentTransaction) (ls : List LoyaltyTransaction)
    (st : LoyaltySettings) (cid : String) :
    findCustomer { customers := cs
                   orders := os
                   payment_transactions := ps
                   loyalty_transactions := ls
                   loyalty_settings := st } cid =
    findFirst (fun c => c.id == cid) cs := rfl

theorem findOrder_mk (cs : List Customer) (os : List Order)
    (ps : List PaymentTransaction) (ls : List LoyaltyTransaction)
    (st : LoyaltySettings) (oid : String) :
    findOrder { customers := cs
                orders := os
                payment_transactions := ps
                loyalty_transactions := ls
                loyalty_settings := st } oid =
    findFirst (fun o => o.id == oid) os := rfl

/-- Invariance: `replayOk` only looks at the customers and the loyalty ledger. -/
theorem replayOk_congr {cid : String} {db db' : DB}
    (hc : db'.customers = db.customers)
    (hl : db'.loyalty_transactions = db.loyalty_transactions)
    (h : replayOk cid db) : replayOk cid db' := by
  intro c hfind
  rw [findCustomer, hc] at hfind
  rw [hl]
  exact h c hfind

/-! ## C3 — volume-discount tier selection -/

/-- C3: for every line quantity and list of volume-discount tiers,
`calculate_volume_discount` applies the percent of the single tier with the
highest `min_quantity` threshold the quantity satisfies (descending scan,
first match wins), returns `0` when no tier is satisfied (in particular for
the empty list), never stacks tiers, and a quantity exactly equal to a tier's
`min_quantity` yields the percent of a tier at exactly that threshold, never a
lower tier's. -/
theorem volume_discount_highest_tier (item_id : String) (quantity : ℤ)
    (vds : List VolumeDiscount) :
    ((∀ vd ∈ vds, ¬ vd.min_quantity ≤ quantity) →
      calculate_volume_discount item_id quantity vds = 0) ∧
    (∀ vd0 ∈ vds, vd0.min_quantity ≤ quantity →
      ∃ vd ∈ vds, vd.min_quantity ≤ quantity ∧
        calculate_volume_discount item_id quantity vds = vd.discount_percent ∧
        ∀ vd' ∈ vds, vd'.min_quantity ≤ quantity → vd'.min_quantity ≤ vd.min_quantity) ∧
    (∀ vd0 ∈ vds, vd0.min_quantity = quantity →
      ∃ vd ∈ vds, vd.min_quantity = quantity ∧
        calculate_volume_discount item_id quantity vds = vd.discount_percent) := by
  by_cases hnil : vds = []
  · subst hnil
    refine ⟨fun _ => rfl, ?_, ?_⟩ <;> intro vd0 h0 <;> cases h0
  · cases hscan : scanFirst (fun vd => vd.min_quantity) quantity
        (sortDesc (fun vd => vd.min_quantity) vds) with
    | none =>
      have hnone := scan_sortDesc_none.1 hscan
      refine ⟨fun _ => ?_, ?_, ?_⟩
      · simp [calculate_volume_discount, hnil, hscan]
      · intro vd0 h0 hq
        exact absurd hq (hnone vd0 h0)
      · intro vd0 h0 hq
        exact absurd (le_of_eq hq) (hnone vd0 h0)
    | some vd =>
      obtain ⟨hmem, hle, hmax⟩ := scan_sortDesc_some hscan
      have hval : calculate_volume_discount item_id quantity vds = vd.discount_percent := by
        simp [calculate_volume_discount, hnil, hscan]
      refine ⟨?_, ?_, ?_⟩
      · intro hforall
        exact absurd hle (hforall vd hmem)
      · intro vd0 h0 hq
        exact ⟨vd, hmem, hle, hval, hmax⟩
      · intro vd0 h0 hq
        exact ⟨vd, hmem, le_antisymm hle (hq ▸ hmax vd0 h0 (le_of_eq hq)), hval⟩

/-- Witness for C3 at a concrete tier list: quantity 10 against thresholds
5/10/20 selects the 10-threshold tier's 12 percent. -/
theorem volume_discount_highest_tier_witness :
    ∃ vd ∈ ([⟨5, 5⟩, ⟨10, 12⟩, ⟨20, 20⟩] : List VolumeDiscount),
      vd.min_quantity ≤ 10 ∧
      calculate_volume_discount "shirt" 10 [⟨5, 5⟩, ⟨10, 12⟩, ⟨20, 20⟩] =
        vd.discount_percent ∧
      ∀ vd' ∈ ([⟨5, 5⟩, ⟨10, 12⟩, ⟨20, 20⟩] : List VolumeDiscount),
        vd'.min_quantity ≤ 10 → vd'.min_quantity ≤ vd.min_quantity :=
  (volume_discount_highest_tier "shirt" 10 [⟨5, 5⟩, ⟨10, 12⟩, ⟨20, 20⟩]).2.1
    ⟨10, 12⟩ (by decide) (by decide)

/-! ## C1 — loyalty accrual -/

/-- C1: `award_loyalty_points` silently skips (state unchanged) when the
customer is missing, excluded, the program is disabled, or a business
customer while businesses are excluded; otherwise it earns
`⌊amount × points_per_dollar × tier_multiplier⌋` points where the multiplier
comes from the highest-`min_points` tier the pre-accrual balance satisfies
(descending scan, first match, default `1.0`, a balance exactly at
`min_points` included); it is a no-op when the earned points are `≤ 0`, and
otherwise adds them to the balance, sets the order's `loyalty_points_earned`,
and appends one `earned` ledger entry whose `balance_after` is the new
balance. -/
theorem award_loyalty_points_spec (customer_id order_id : String) (amount : ℚ)
    (order_number txn_id now : String) (db db' : DB)
    (hdb' : db' = award_loyalty_points customer_id order_id amount order_number
      txn_id now db) :
    (findCustomer db customer_id = none → db' = db) ∧
    (∀ c, findCustomer db customer_id = some c →
      (c.loyalty_excluded = true → db' = db) ∧
      (db.loyalty_settings.enabled = false → db' = db) ∧
      (c.customer_type = .business →
        db.loyalty_settings.exclude_business_customers = true → db' = db) ∧
      (c.loyalty_excluded = false → db.loyalty_settings.enabled = true →
       (c.customer_type = .business →
         db.loyalty_settings.exclude_business_customers = false) →
       ∀ pe : ℤ, pe = pyInt (amount * db.loyalty_settings.points_per_dollar *
           tier_multiplier db.loyalty_settings.tiers c.loyalty_points) →
         (pe ≤ 0 → db' = db) ∧
         (0 < pe →
           pe = ⌊amount * db.loyalty_settings.points_per_dollar *
             tier_multiplier db.loyalty_settings.tiers c.loyalty_points⌋ ∧
           findCustomer db' customer_id =
             some { c with loyalty_points := c.loyalty_points + pe } ∧
           (∀ o, findOrder db order_id = some o →
             findOrder db' order_id =
               some { o with loyalty_points_earned := pe }) ∧
           db'.loyalty_transactions = db.loyalty_transactions ++
             [{ id := txn_id
                customer_id := customer_id
                order_id := some order_id
                type := .earned
                points := pe
                description := "Earned from order " ++ order_number
                balance_after := c.loyalty_points + pe
                created_at := now }]))) ∧
    (∀ (tiers : List LoyaltyTier) (balance : ℤ),
      ((∀ t ∈ tiers, ¬ t.min_points ≤ balance) →
        tier_multiplier tiers balance = 1) ∧
      (∀ t0 ∈ tiers, t0.min_points ≤ balance →
        ∃ t ∈ tiers, t.min_points ≤ balance ∧
          tier_multiplier tiers balance = t.multiplier ∧
          ∀ t' ∈ tiers, t'.min_points ≤ balance →
            t'.min_points ≤ t.min_points)) := by
  subst hdb'
  refine ⟨?_, ?_, ?_⟩
  · intro h
    simp [award_loyalty_points, h]
  · intro c hc
    refine ⟨?_, ?_, ?_, ?_⟩
    · intro hexc
      simp [award_loyalty_points, hc, hexc]
    · intro hen
      by_cases hexc : c.loyalty_excluded <;>
        simp [award_loyalty_points, hc, hexc, hen]
    · intro hbt hbx
      by_cases hexc : c.loyalty_excluded
      · simp [award_loyalty_points, hc, hexc]
      · by_cases hen : db.loyalty_settings.enabled <;>
          simp [award_loyalty_points, hc, hexc, hen, hbt, hbx]
    · intro hexc hen hbiz pe hpe
      have hguard : (c.customer_type == CustomerType.business &&
          db.loyalty_settings.exclude_business_customers) = false := by
        by_cases hbt : c.customer_type = .business
        · simp [hbt, hbiz hbt]
        · simp [hbt]
      constructor
      · intro hle
        simp [award_loyalty_points, hc, hexc, hen, hguard, ← hpe, hle]
      · intro hpos
        have hne : ¬ pyInt (amount * db.loyalty_settings.points_per_dollar *
            tier_multiplier db.loyalty_settings.tiers c.loyalty_points) ≤ 0 := by
          rw [← hpe]
          omega
        have hceq : findCustomer (award_loyalty_points customer_id order_id amount
            order_number txn_id now db) customer_id =
            some { c with loyalty_points := c.loyalty_points + pe } := by
          simp only [award_loyalty_points, hc, hexc, hen, hguard, Bool.not_true,
            Bool.false_eq_true, if_false, if_neg hne]
          rw [findCustomer_mk]
          rw [findFirst_updateFirst']
          · have hc' : findFirst (fun x => x.id == customer_id) db.customers = some c := hc
            rw [hc']
            simp [← hpe, hexc]
          · intro a
            rfl
        refine ⟨?_, hceq, ?_, ?_⟩
        · rw [hpe]
          exact pyInt_eq_floor_of_pos (hpe ▸ hpos)
        · intro o ho
          simp only [award_loyalty_points, hc, hexc, hen, hguard, Bool.not_true,
            Bool.false_eq_true, if_false, if_neg hne]
          rw [findOrder_mk]
          rw [findFirst_updateFirst']
          · have ho' : findFirst (fun x => x.id == order_id) db.orders = some o := ho
            rw [ho']
            simp [← hpe]
          · intro a
            rfl
        · simp only [award_loyalty_points, hc, hexc, hen, hguard, Bool.not_true,
            Bool.false_eq_true, if_false, if_neg hne]
          simp [← hpe]
  · intro tiers balance
    constructor
    · intro hnone
      have hscan : scanFirst (fun t => t.min_points) balance
          (sortDesc (fun t => t.min_points) tiers) = none :=
        scan_sortDesc_none.2 hnone
      simp [tier_multiplier, hscan]
    · intro t0 h0 hq
      cases hscan : scanFirst (fun t => t.min_points) balance
          (sortDesc (fun t => t.min_points) tiers) with
      | none => exact absurd hq (scan_sortDesc_none.1 hscan t0 h0)
      | some t =>
        obtain ⟨hmem, hle, hmax⟩ := scan_sortDesc_some hscan
        exact ⟨t, hmem, hle, by simp [tier_multiplier, hscan], hmax⟩

unseal Rat.mul Rat.inv Rat.add Rat.sub in
/-- Witness for C1: Alice (balance 200, Gold tier ×2) is awarded
`⌊10 × 1 × 2⌋ = 20` points by a $10 payment, reaching 220, with exactly one
`earned` ledger entry recording `balance_after = 220`. -/
theorem award_loyalty_points_spec_witness :
    findCustomer (award_loyalty_points "alice" "o1" 10 "DC1" "tx1" "t2" dbAward)
        "alice" = some { alice with loyalty_points := 220 } ∧
    (award_loyalty_points "alice" "o1" 10 "DC1" "tx1" "t2" dbAward).loyalty_transactions =
      [{ id := "tx1"
         customer_id := "alice"
         order_id := some "o1"
         type := .earned
         points := 20
         description := "Earned from order DC1"
         balance_after := 220
         created_at := "t2" }] := by
  have h := (award_loyalty_points_spec "alice" "o1" 10 "DC1" "tx1" "t2" dbAward
    _ rfl).2.1 alice rfl
  have h5 := (h.2.2.2 rfl rfl (fun hb => absurd hb (by decide)) 20 (by decide)).2
    (by decide)
  exact ⟨h5.2.1, h5.2.2.2⟩

/-! ## C2 — redemption preview -/

/-- C2: `calculate_loyalty_redemption` fails when the program is disabled,
when the customer is excluded (directly or as a business customer while
businesses are excluded), when the request exceeds the available balance, and
when the request is below `min_redemption_points`; otherwise it returns the
requested value `points_to_redeem × redemption_rate` capped at
`order_total × max_redemption_percent / 100`, back-converting the capped
discount into `points_to_use = ⌊actual_discount / redemption_rate⌋`, so that
whenever the percent cap binds the response has
`points_to_use < points_to_redeem` and
`discount_value = max_discount_allowed`. -/
theorem calculate_loyalty_redemption_spec (customer_id : String) (order_total : ℚ)
    (points_to_redeem : ℤ) (db : DB) (c : Customer)
    (hc : findCustomer db customer_id = some c)
    (hrate : 0 < db.loyalty_settings.redemption_rate)
    (htotal : 0 ≤ order_total)
    (hpct : 0 ≤ db.loyalty_settings.max_redemption_percent) :
    (db.loyalty_settings.enabled = false →
      calculate_loyalty_redemption customer_id order_total points_to_redeem db =
        .error .ProgramDisabled) ∧
    (db.loyalty_settings.enabled = true →
      (c.loyalty_excluded || (c.customer_type == .business &&
        db.loyalty_settings.exclude_business_customers)) = true →
      calculate_loyalty_redemption customer_id order_total points_to_redeem db =
        .error .CustomerExcluded) ∧
    (db.loyalty_settings.enabled = true →
      (c.loyalty_excluded || (c.customer_type == .business &&
        db.loyalty_settings.exclude_business_customers)) = false →
      c.loyalty_points < points_to_redeem →
      calculate_loyalty_redemption customer_id order_total points_to_redeem db =
        .error .InsufficientPoints) ∧
    (db.loyalty_settings.enabled = true →
      (c.loyalty_excluded || (c.customer_type == .business &&
        db.loyalty_settings.exclude_business_customers)) = false →
      points_to_redeem ≤ c.loyalty_points →
      points_to_redeem < db.loyalty_settings.min_redemption_points →
      calculate_loyalty_redemption customer_id order_total points_to_redeem db =
        .error .BelowMinimum) ∧
    (db.loyalty_settings.enabled = true →
      (c.loyalty_excluded || (c.customer_type == .business &&
        db.loyalty_settings.exclude_business_customers)) = false →
      points_to_redeem ≤ c.loyalty_points →
      db.loyalty_settings.min_redemption_points ≤ points_to_redeem →
      0 ≤ points_to_redeem →
      ∃ r, calculate_loyalty_redemption customer_id order_total points_to_redeem db =
          .ok r ∧
        r.discount_value = round2 (min
          ((points_to_redeem : ℚ) * db.loyalty_settings.redemption_rate)
          (order_total * (db.loyalty_settings.max_redemption_percent / 100))) ∧
        r.max_discount_allowed = round2
          (order_total * (db.loyalty_settings.max_redemption_percent / 100)) ∧
        r.points_to_use = ⌊(min
          ((points_to_redeem : ℚ) * db.loyalty_settings.redemption_rate)
          (order_total * (db.loyalty_settings.max_redemption_percent / 100))) /
          db.loyalty_settings.redemption_rate⌋ ∧
        r.remaining_points = c.loyalty_points - r.points_to_use ∧
        (order_total * (db.loyalty_settings.max_redemption_percent / 100) <
            (points_to_redeem : ℚ) * db.loyalty_settings.redemption_rate →
          r.points_to_use < points_to_redeem ∧
          r.discount_value = r.max_discount_allowed)) := by
  refine ⟨?_, ?_, ?_, ?_, ?_⟩
  · intro hen
    simp [calculate_loyalty_redemption, hc, hen]
  · intro hen hexc
    simp [calculate_loyalty_redemption, hc, hen, hexc]
  · intro hen hexc hlt
    simp [calculate_loyalty_redemption, hc, hen, hexc, hlt]
  · intro hen hexc hle hmin
    simp [calculate_loyalty_redemption, hc, hen, hexc, not_lt.2 hle, hmin]
  · intro hen hexc hle hmin hnn
    have hnlt : ¬ c.loyalty_points < points_to_redeem := not_lt.2 hle
    have hnmin : ¬ points_to_redeem < db.loyalty_settings.min_redemption_points :=
      not_lt.2 hmin
    have hds : 0 ≤ min ((points_to_redeem : ℚ) * db.loyalty_settings.redemption_rate)
        (order_total * (db.loyalty_settings.max_redemption_percent / 100)) := by
      refine le_min ?_ ?_
      · exact mul_nonneg (by exact_mod_cast hnn) (le_of_lt hrate)
      · exact mul_nonneg htotal (by positivity)
    have hok : calculate_loyalty_redemption customer_id order_total points_to_redeem db =
        .ok { points_available := c.loyalty_points
              points_requested := points_to_redeem
              points_to_use := pyInt ((min
                ((points_to_redeem : ℚ) * db.loyalty_settings.redemption_rate)
                (order_total * (db.loyalty_settings.max_redemption_percent / 100))) /
                db.loyalty_settings.redemption_rate)
              discount_value := round2 (min
                ((points_to_redeem : ℚ) * db.loyalty_settings.redemption_rate)
                (order_total * (db.loyalty_settings.max_redemption_percent / 100)))
              max_discount_allowed := round2
                (order_total * (db.loyalty_settings.max_redemption_percent / 100))
              order_total := order_total
              new_total := round2 (order_total - min
                ((points_to_redeem : ℚ) * db.loyalty_settings.redemption_rate)
                (order_total * (db.loyalty_settings.max_redemption_percent / 100)))
              remaining_points := c.loyalty_points - pyInt ((min
                ((points_to_redeem : ℚ) * db.loyalty_settings.redemption_rate)
                (order_total * (db.loyalty_settings.max_redemption_percent / 100))) /
                db.loyalty_settings.redemption_rate) } := by
      simp [calculate_loyalty_redemption, hc, hen, hexc, hnlt, hnmin]
    have hfloor : pyInt ((min
        ((points_to_redeem : ℚ) * db.loyalty_settings.redemption_rate)
        (order_total * (db.loyalty_settings.max_redemption_percent / 100))) /
        db.loyalty_settings.redemption_rate) = ⌊(min
        ((points_to_redeem : ℚ) * db.loyalty_settings.redemption_rate)
        (order_total * (db.loyalty_settings.max_redemption_percent / 100))) /
        db.loyalty_settings.redemption_rate⌋ :=
      pyInt_eq_floor (div_nonneg hds (le_of_lt hrate))
    refine ⟨_, hok, rfl, rfl, hfloor, rfl, ?_⟩
    intro hbind
    have hmin_eq : min ((points_to_redeem : ℚ) * db.loyalty_settings.redemption_rate)
        (order_total * (db.loyalty_settings.max_redemption_percent / 100)) =
        order_total * (db.loyalty_settings.max_redemption_percent / 100) :=
      min_eq_right (le_of_lt hbind)
    constructor
    · show pyInt _ < _
      rw [hfloor, hmin_eq]
      have hdiv : order_total * (db.loyalty_settings.max_redemption_percent / 100) /
          db.loyalty_settings.redemption_rate < (points_to_redeem : ℚ) :=
        (div_lt_iff hrate).2 hbind
      exact Int.floor_lt.2 hdiv
    · show round2 _ = round2 _
      rw [hmin_eq]

unseal Rat.mul Rat.inv Rat.add Rat.sub in
/-- Witness for C2: Bob (500 points) requests 400 points against a $30 order;
the requested $20 exceeds the 50% cap of $15, so only 300 points are used and
the discount equals the cap. -/
theorem calculate_loyalty_redemption_spec_witness :
    ∃ r, calculate_loyalty_redemption "bob" 30 400 dbRedeem = Except.ok r ∧
      r.points_to_use < 400 ∧ r.discount_value = r.max_discount_allowed := by
  obtain ⟨r, hok, hdv, hmda, hptu, hrem, hcap⟩ :=
    (calculate_loyalty_redemption_spec "bob" 30 400 dbRedeem bob rfl (by decide)
      (by decide) (by decide)).2.2.2.2 rfl (by decide) (by decide) (by decide)
      (by decide)
  obtain ⟨hlt, heq⟩ := hcap (by decide)
  exact ⟨r, hok, hlt, heq⟩

/-! ## C8 — blacklist gate -/

/-- C8: order creation for an existing blacklisted customer fails with the
`Forbidden`-class blacklist error, and no state is persisted (the store is
untouched). -/
theorem create_order_blacklist_gate (order : OrderCreate)
    (oid onum now txn cb : String) (db : DB) (c : Customer)
    (hc : findCustomer db order.customer_id = some c)
    (hb : c.is_blacklisted = true) :
    create_order order oid onum now txn cb db = .error .Blacklisted ∧
    applyCreate order oid onum now txn cb db = db := by
  have h1 : create_order order oid onum now txn cb db = .error .Blacklisted := by
    simp [create_order, hc, hb]
  exact ⟨h1, by simp [applyCreate, h1]⟩

/-- Witness for C8: blacklisted Dave cannot place an order. -/
theorem create_order_blacklist_gate_witness :
    create_order (reqFor "dave" 10) "o9" "DC9" "t9" "tx9" "u1" dbOrders =
      .error .Blacklisted ∧
    applyCreate (reqFor "dave" 10) "o9" "DC9" "t9" "tx9" "u1" dbOrders = dbOrders :=
  create_order_blacklist_gate (reqFor "dave" 10) "o9" "DC9" "t9" "tx9" "u1"
    dbOrders dave rfl rfl

/-! ## C7 — order-creation redemption atomicity -/

/-- C7: with `loyalty_points_redeemed > 0`, order creation fails with
`InsufficientPoints` and mutates nothing when the request exceeds the balance
(validated before any write); otherwise exactly the requested points are
deducted and exactly one `redeemed` ledger entry is appended. -/
theorem create_order_redemption_atomic (order : OrderCreate)
    (oid onum now txn cb : String) (db : DB) (c : Customer)
    (hc : findCustomer db order.customer_id = some c)
    (hb : c.is_blacklisted = false)
    (hr : 0 < order.loyalty_points_redeemed) :
    (c.loyalty_points < order.loyalty_points_redeemed →
      create_order order oid onum now txn cb db = .error .InsufficientPoints ∧
      applyCreate order oid onum now txn cb db = db) ∧
    (order.loyalty_points_redeemed ≤ c.loyalty_points →
      ∃ db' doc, create_order order oid onum now txn cb db = .ok (db', doc) ∧
        (∃ c', findCustomer db' order.customer_id = some c' ∧
          c'.loyalty_points = c.loyalty_points - order.loyalty_points_redeemed) ∧
        db'.loyalty_transactions = db.loyalty_transactions ++
          [{ id := txn
             customer_id := order.customer_id
             order_id := some oid
             type := .redeemed
             points := -order.loyalty_points_redeemed
             description := "Redeemed for order " ++ onum
             balance_after := c.loyalty_points - order.loyalty_points_redeemed
             created_at := now }]) := by
  constructor
  · intro hlt
    have h1 : create_order order oid onum now txn cb db = .error .InsufficientPoints := by
      simp [create_order, hc, hb, hr, hlt]
    exact ⟨h1, by simp [applyCreate, h1]⟩
  · intro hle
    have hnlt : ¬ (0 < order.loyalty_points_redeemed ∧
        c.loyalty_points < order.loyalty_points_redeemed) :=
      fun h => absurd h.2 (not_lt.2 hle)
    obtain ⟨⟨db', doc⟩, hres⟩ :
        ∃ p, create_order order oid onum now txn cb db = .ok p := by
      simp [create_order, hc, hb, hnlt]
    have hx := hres
    simp [create_order, hc, hb, not_lt.2 hle, hr] at hx
    obtain ⟨h1, h2⟩ := hx
    subst h1
    subst h2
    refine ⟨_, _, hres, ?_, rfl⟩
    rw [findCustomer_mk]
    rw [findFirst_updateFirst']
    · rw [findFirst_updateFirst']
      · have hc' : findFirst (fun x => x.id == order.customer_id) db.customers =
            some c := hc
        rw [hc']
        simp only [Option.map_some']
        exact ⟨_, rfl, rfl⟩
      · intro a
        rfl
    · intro a
      rfl

/-- Witness for C7: Carol (50 points) redeeming 30 on order creation ends at
20 points with a single `redeemed` entry; the theorem is applied at the
concrete store. -/
theorem create_order_redemption_atomic_witness :
    ∃ db' doc, create_order { reqFor "carol" 10 with loyalty_points_redeemed := 30 }
        "o8" "DC8" "t8" "tx8" "u1" dbOrders = .ok (db', doc) ∧
      (∃ c', findCustomer db' "carol" = some c' ∧ c'.loyalty_points = 20) ∧
      db'.loyalty_transactions =
        [{ id := "tx8"
           customer_id := "carol"
           order_id := some "o8"
           type := .redeemed
           points := -30
           description := "Redeemed for order DC8"
           balance_after := 20
           created_at := "t8" }] := by
  obtain ⟨db', doc, hok, ⟨c', hfc, hlp⟩, hledger⟩ :=
    (create_order_redemption_atomic { reqFor "carol" 10 with loyalty_points_redeemed := 30 }
      "o8" "DC8" "t8" "tx8" "u1" dbOrders carol rfl rfl (by decide)).2 (by decide)
  exact ⟨db', doc, hok, ⟨c', hfc, hlp⟩, hledger⟩

/-! ## C10 — missing customer is not checked -/

/-- C10: when the referenced customer does not exist and no points are
redeemed, `create_order` succeeds anyway: the order referencing the missing
customer is persisted, and the customers collection and loyalty ledger are
untouched (the stats update matches no document). -/
theorem create_order_missing_customer (order : OrderCreate)
    (oid onum now txn cb : String) (db : DB)
    (hc : findCustomer db order.customer_id = none)
    (hr : order.loyalty_points_redeemed = 0) :
    ∃ db' doc, create_order order oid onum now txn cb db = .ok (db', doc) ∧
      doc.customer_id = order.customer_id ∧
      db'.orders = db.orders ++ [doc] ∧
      db'.customers = db.customers ∧
      db'.loyalty_transactions = db.loyalty_transactions := by
  have hnone : ∀ a ∈ db.customers, (a.id == order.customer_id) = false :=
    findFirst_eq_none.1 hc
  obtain ⟨⟨db', doc⟩, hres⟩ :
      ∃ p, create_order order oid onum now txn cb db = .ok p := by
    simp [create_order, hc, hr]
  have hx := hres
  simp [create_order, hc, hr] at hx
  obtain ⟨h1, h2⟩ := hx
  subst h1
  subst h2
  refine ⟨_, _, hres, rfl, rfl, ?_, rfl⟩
  show updateFirst _ _ db.customers = db.customers
  exact updateFirst_eq_self hnone

/-- Witness for C10: an order for the unknown id `ghost` is accepted and
stored while the customers collection stays `[carol, dave]`. -/
theorem create_order_missing_customer_witness :
    ∃ db' doc, create_order (reqFor "ghost" 10) "o7" "DC7" "t7" "tx7" "u1" dbOrders =
        .ok (db', doc) ∧
      doc.customer_id = "ghost" ∧
      db'.orders = dbOrders.orders ++ [doc] ∧
      db'.customers = dbOrders.customers ∧
      db'.loyalty_transactions = dbOrders.loyalty_transactions :=
  create_order_missing_customer (reqFor "ghost" 10) "o7" "DC7" "t7" "tx7" "u1"
    dbOrders rfl rfl

/-! ## C9 — invoice payments only for business customers -/

/-- C9: an invoice payment against an order whose `customer_type` is not
`business` always fails with a 4xx-class error — `InvalidPaymentMethod` when
the order is not already paid (`AlreadyPaid` otherwise); for a business
customer's unpaid order it succeeds, the transaction stays `PENDING`, the
order's `payment_status` is unchanged (so still `pending`), only
`payment_method` is recorded, and no accrual happens (customers and loyalty
ledger untouched). -/
theorem invoice_payment_business_only (payment : PaymentCreate)
    (pid now gsid gurl atxn : String) (db : DB) (order : Order)
    (ho : findOrder db payment.order_id = some order)
    (hm : payment.payment_method = .invoice) :
    (order.customer_type ≠ .business →
      ∃ e, create_payment payment pid now gsid gurl atxn db = .error e) ∧
    (order.customer_type ≠ .business → order.payment_status ≠ .completed →
      create_payment payment pid now gsid gurl atxn db =
        .error .InvalidPaymentMethod) ∧
    (order.customer_type = .business → order.payment_status ≠ .completed →
      ∃ db' tx, create_payment payment pid now gsid gurl atxn db = .ok (db', tx) ∧
        tx.status = .pending ∧
        tx.payment_method = .invoice ∧
        db'.customers = db.customers ∧
        db'.loyalty_transactions = db.loyalty_transactions ∧
        ∃ o', findOrder db' payment.order_id = some o' ∧
          o'.payment_status = order.payment_status ∧
          o'.payment_method = some .invoice) := by
  refine ⟨?_, ?_, ?_⟩
  · intro hnb
    by_cases hps : order.payment_status = .completed
    · exact ⟨.AlreadyPaid, by simp [create_payment, ho, hps]⟩
    · exact ⟨.InvalidPaymentMethod, by simp [create_payment, ho, hps, hm, hnb]⟩
  · intro hnb hps
    simp [create_payment, ho, hps, hm, hnb]
  · intro hbiz hps
    have hguard : ¬ (payment.payment_method = PaymentMethod.invoice ∧
        ¬ order.customer_type = CustomerType.business) :=
      fun h => h.2 hbiz
    obtain ⟨⟨db', tx⟩, hres⟩ :
        ∃ p, create_payment payment pid now gsid gurl atxn db = .ok p := by
      simp [create_payment, ho, hps, hguard, hm, hbiz]
    have hx := hres
    simp [create_payment, ho, hps, hguard, hm, hbiz] at hx
    obtain ⟨h1, h2⟩ := hx
    subst h1
    subst h2
    refine ⟨_, _, hres, rfl, rfl, rfl, rfl, ?_⟩
    rw [findOrder_mk]
    rw [findFirst_updateFirst']
    · have ho' : findFirst (fun x => x.id == payment.order_id) db.orders =
          some order := ho
      rw [ho']
      simp only [Option.map_some']
      exact ⟨_, rfl, rfl, rfl⟩
    · intro a
      rfl

unseal Rat.mul Rat.inv Rat.add Rat.sub in
/-- Witness for C9: an invoice payment on retail Alice's order is rejected
with `InvalidPaymentMethod`, while on business Bob's order it succeeds with a
`PENDING` transaction and the order still `pending`. -/
theorem invoice_payment_business_only_witness :
    create_payment { order_id := "o1", amount := 10, payment_method := .invoice }
        "p2" "t3" "g1" "g2" "a1" dbPay = .error .InvalidPaymentMethod ∧
    ∃ db' tx, create_payment { order_id := "o2", amount := 10, payment_method := .invoice }
        "p3" "t4" "g1" "g2" "a1" dbPay = .ok (db', tx) ∧
      tx.status = .pending ∧
      ∃ o', findOrder db' "o2" = some o' ∧ o'.payment_status = .pending ∧
        o'.payment_method = some .invoice := by
  constructor
  · exact (invoice_payment_business_only
      { order_id := "o1", amount := 10, payment_method := .invoice }
      "p2" "t3" "g1" "g2" "a1" dbPay orderEx rfl rfl).2.1 (by decide) (by decide)
  · obtain ⟨db', tx, hres, htx, -, -, -, o', ho', hops, hopm⟩ :=
      (invoice_payment_business_only
        { order_id := "o2", amount := 10, payment_method := .invoice }
        "p3" "t4" "g1" "g2" "a1" dbPay orderBiz rfl rfl).2.2 (by decide) (by decide)
    exact ⟨db', tx, hres, htx, o', ho', hops.trans rfl, hopm⟩

/-! ## C4 — webhook completion fires no accrual (code bug) -/

unseal Rat.mul Rat.inv Rat.add Rat.sub in
/-- C4 (divergence demonstration): delivering a `paid` webhook for a pending
card payment completes the transaction and the order, and a second identical
delivery changes nothing (the not-already-`COMPLETED` guard works) — but no
accrual fires on either delivery: the ledger stays empty and
`loyalty_points_earned` stays 0, even though the customer is eligible
(`award_loyalty_points` run at the same state would append one `earned`
entry). The claim's "completion and accrual side effects fire, … exactly one
'earned' ledger entry" is therefore false on the code: the count is zero. -/
theorem stripe_webhook_no_accrual :
    (stripe_webhook webhookPaid dbWebhook).loyalty_transactions = [] ∧
    (findOrder (stripe_webhook webhookPaid dbWebhook) "o1").map
      (fun o => o.loyalty_points_earned) = some 0 ∧
    (findOrder (stripe_webhook webhookPaid dbWebhook) "o1").map
      (fun o => o.payment_status) = some .completed ∧
    (findFirst (fun p => p.id == "p1")
      (stripe_webhook webhookPaid dbWebhook).payment_transactions).map
      (fun p => p.status) = some .completed ∧
    stripe_webhook webhookPaid (stripe_webhook webhookPaid dbWebhook) =
      stripe_webhook webhookPaid dbWebhook ∧
    (award_loyalty_points "alice" "o1" 50 "DC1" "t9" "t10"
      (stripe_webhook webhookPaid dbWebhook)).loyalty_transactions.length = 1 := by
  refine ⟨?_, ?_, ?_, ?_, ?_, ?_⟩ <;> decide

/-! ## C5 — ledger replay invariant: preservation lemmas -/

/-- Writing a customer's balance together with appending a ledger entry whose
delta matches the balance change preserves the replay invariant. -/
theorem replayOk_step {cid cid' : String} {db : DB} {f : Customer → Customer}
    {entry : LoyaltyTransaction} {os : List Order}
    {ps : List PaymentTransaction} {st : LoyaltySettings}
    (hfid : ∀ a, (f a).id = a.id)
    (hflp : ∀ c0, findFirst (fun x => x.id == cid') db.customers = some c0 →
      (f c0).loyalty_points = c0.loyalty_points + entry.points)
    (hecid : entry.customer_id = cid')
    (h : replayOk cid db) :
    replayOk cid
      { customers := updateFirst (fun x => x.id == cid') f db.customers
        orders := os
        payment_transactions := ps
        loyalty_transactions := db.loyalty_transactions ++ [entry]
        loyalty_settings := st } := by
  intro c hcf
  rw [findCustomer_mk] at hcf
  show ledger_sum cid (db.loyalty_transactions ++ [entry]) = c.loyalty_points
  rw [ledger_sum_append, ledger_sum_single]
  by_cases hid : cid' = cid
  · subst hid
    rw [findFirst_updateFirst'] at hcf
    · cases hfc : findFirst (fun x => x.id == cid') db.customers with
      | none =>
        rw [hfc] at hcf
        cases hcf
      | some c0 =>
        rw [hfc] at hcf
        simp only [Option.map_some'] at hcf
        obtain rfl := Option.some.inj hcf
        have hsum : ledger_sum cid' db.loyalty_transactions = c0.loyalty_points :=
          h c0 hfc
        rw [hecid]
        simp [hsum, hflp c0 hfc]
    · intro a
      rw [hfid a]
  · rw [findFirst_updateFirst_other'] at hcf
    · have hne : (entry.customer_id == cid) = false := by
        rw [hecid]
        exact beq_eq_false_iff_ne.mpr hid
      rw [hne]
      simpa using h c hcf
    · intro a
      rw [hfid a]
    · intro a ha
      have ha' : a.id = cid' := by simpa using ha
      rw [ha']
      exact beq_eq_false_iff_ne.mpr hid

/-- Rewriting a customer without touching its balance, with the ledger
unchanged, preserves the replay invariant (the aggregate-stats update). -/
theorem replayOk_stats {cid cid' : String} {db : DB} {f : Customer → Customer}
    {os : List Order} {ps : List PaymentTransaction} {st : LoyaltySettings}
    (hfid : ∀ a, (f a).id = a.id)
    (hflp : ∀ a, (f a).loyalty_points = a.loyalty_points)
    (h : replayOk cid db) :
    replayOk cid
      { customers := updateFirst (fun x => x.id == cid') f db.customers
        orders := os
        payment_transactions := ps
        loyalty_transactions := db.loyalty_transactions
        loyalty_settings := st } := by
  intro c hcf
  rw [findCustomer_mk] at hcf
  show ledger_sum cid db.loyalty_transactions = c.loyalty_points
  by_cases hid : cid' = cid
  · subst hid
    rw [findFirst_updateFirst'] at hcf
    · cases hfc : findFirst (fun x => x.id == cid') db.customers with
      | none =>
        rw [hfc] at hcf
        cases hcf
      | some c0 =>
        rw [hfc] at hcf
        simp only [Option.map_some'] at hcf
        obtain rfl := Option.some.inj hcf
        rw [hflp c0]
        exact h c0 hfc
    · intro a
      rw [hfid a]
  · rw [findFirst_updateFirst_other'] at hcf
    · exact h c hcf
    · intro a
      rw [hfid a]
    · intro a ha
      have ha' : a.id = cid' := by simpa using ha
      rw [ha']
      exact beq_eq_false_iff_ne.mpr hid

/-- Accrual preserves the replay invariant for every customer. -/
theorem award_replayOk (cid cid' oid : String) (amount : ℚ)
    (onum txn now : String) (db : DB) (h : replayOk cid db) :
    replayOk cid (award_loyalty_points cid' oid amount onum txn now db) := by
  cases hfc : findCustomer db cid' with
  | none => simpa [award_loyalty_points, hfc] using h
  | some customer =>
    by_cases h1 : customer.loyalty_excluded
    · simpa [award_loyalty_points, hfc, h1] using h
    · by_cases h2 : db.loyalty_settings.enabled
      · by_cases h3 : customer.customer_type == CustomerType.business &&
            db.loyalty_settings.exclude_business_customers
        · simpa [award_loyalty_points, hfc, h1, h2, h3] using h
        · by_cases h4 : pyInt (amount * db.loyalty_settings.points_per_dollar *
              tier_multiplier db.loyalty_settings.tiers customer.loyalty_points) ≤ 0
          · simpa [award_loyalty_points, hfc, h1, h2, h3, h4] using h
          · have hpe : ∃ pe : ℤ, pe = pyInt (amount * db.loyalty_settings.points_per_dollar *
                tier_multiplier db.loyalty_settings.tiers customer.loyalty_points) :=
              ⟨_, rfl⟩
            obtain ⟨pe, hpedef⟩ := hpe
            have hshape : award_loyalty_points cid' oid amount onum txn now db =
                { customers :=
                    updateFirst (fun x => x.id == cid')
                      (fun c => { c with loyalty_points := customer.loyalty_points + pe })
                      db.customers
                  orders :=
                    updateFirst (fun o => o.id == oid)
                      (fun o => { o with loyalty_points_earned := pe })
                      db.orders
                  payment_transactions := db.payment_transactions
                  loyalty_transactions :=
                    db.loyalty_transactions ++
                      [{ id := txn
                         customer_id := cid'
                         order_id := some oid
                         type := .earned
                         points := pe
                         description := "Earned from order " ++ onum
                         balance_after := customer.loyalty_points + pe
                         created_at := now }]
                  loyalty_settings := db.loyalty_settings } := by
              subst hpedef
              simp [award_loyalty_points, hfc, h1, h2, h3, h4]
            rw [hshape]
            refine replayOk_step (fun a => rfl) ?_ rfl h
            intro c0 hc0
            have hfc' : findFirst (fun x => x.id == cid') db.customers =
                some customer := hfc
            rw [hfc'] at hc0
            obtain rfl := Option.some.inj hc0
            rfl
      · simpa [award_loyalty_points, hfc, h1, h2] using h

/-- Order creation (with its optional redemption) preserves the replay
invariant for every customer. -/
theorem applyCreate_replayOk (cid : String) (order : OrderCreate)
    (oid onum now txn cb : String) (db : DB) (h : replayOk cid db) :
    replayOk cid (applyCreate order oid onum now txn cb db) := by
  by_cases hbl : (Option.map (fun c => c.is_blacklisted)
      (findCustomer db order.customer_id)).getD false = true
  · simpa [applyCreate, create_order, hbl] using h
  · by_cases hins : 0 < order.loyalty_points_redeemed ∧
        (Option.map (fun c => c.loyalty_points)
          (findCustomer db order.customer_id)).getD 0 < order.loyalty_points_redeemed
    · simpa [applyCreate, create_order, hbl, hins] using h
    · by_cases hr : 0 < order.loyalty_points_redeemed
      · have hcur : ¬ ((Option.map (fun c => c.loyalty_points)
            (findCustomer db order.customer_id)).getD 0 <
              order.loyalty_points_redeemed) :=
          fun hh => hins ⟨hr, hh⟩
        simp [applyCreate, create_order, hbl, hcur, hr]
        refine replayOk_stats ?_ ?_
          (@replayOk_step cid order.customer_id db _ _ db.orders
            db.payment_transactions db.loyalty_settings ?_ ?_ ?_ h)
        · intro a
          rfl
        · intro a
          rfl
        · intro a
          rfl
        · intro c0 hc0
          exact sub_eq_add_neg _ _
        · rfl
      · simp [applyCreate, create_order, hbl, hr]
        refine replayOk_stats ?_ ?_ h
        · intro a
          rfl
        · intro a
          rfl

/-- Payment creation (including immediate-completion accrual) preserves the
replay invariant for every customer. -/
theorem applyPayment_replayOk (cid : String) (payment : PaymentCreate)
    (pid now gsid gurl atxn : String) (db : DB) (h : replayOk cid db) :
    replayOk cid (applyPayment payment pid now gsid gurl atxn db) := by
  cases ho : findOrder db payment.order_id with
  | none => simpa [applyPayment, create_payment, ho] using h
  | some order =>
    by_cases hps : order.payment_status = PaymentStatus.completed
    · simpa [applyPayment, create_payment, ho, hps] using h
    · by_cases hinv : payment.payment_method = PaymentMethod.invoice ∧
          ¬ order.customer_type = CustomerType.business
      · simpa [applyPayment, create_payment, ho, hps, hinv] using h
      · cases hm : payment.payment_method with
        | card =>
          simp only [applyPayment, create_payment, ho, if_neg hps, if_neg hinv, hm]
          exact replayOk_congr rfl rfl h
        | cash =>
          simp only [applyPayment, create_payment, ho, if_neg hps, if_neg hinv, hm]
          exact replayOk_congr rfl rfl
            (award_replayOk cid order.customer_id payment.order_id payment.amount
              order.order_number atxn now _ (replayOk_congr rfl rfl h))
        | bank_transfer =>
          simp only [applyPayment, create_payment, ho, if_neg hps, if_neg hinv, hm]
          exact replayOk_congr rfl rfl
            (award_replayOk cid order.customer_id payment.order_id payment.amount
              order.order_number atxn now _ (replayOk_congr rfl rfl h))
        | pay_on_collection =>
          simp only [applyPayment, create_payment, ho, if_neg hps, if_neg hinv, hm]
          exact replayOk_congr rfl rfl h
        | invoice =>
          have hbiz : order.customer_type = CustomerType.business := by
            by_contra hnb
            exact hinv ⟨hm, hnb⟩
          simp [applyPayment, create_payment, ho, hps, hm, hbiz]
          exact replayOk_congr rfl rfl h

/-- A manual adjustment that does not hit the `max(0, ·)` clamp preserves the
replay invariant for every customer. -/
theorem applyAdjust_replayOk (cid customer_id : String) (n : ℤ)
    (reason actor role txn now : String) (db : DB) (h : replayOk cid db)
    (hcl : ∀ c, findCustomer db customer_id = some c → 0 ≤ c.loyalty_points + n) :
    replayOk cid (applyAdjust customer_id n reason actor role txn now db) := by
  by_cases hrole : ¬ (role = "admin" ∨ role = "manager")
  · simpa [applyAdjust, adjust_loyalty_points, hrole] using h
  · cases hfc : findCustomer db customer_id with
    | none => simpa [applyAdjust, adjust_loyalty_points, hrole, hfc] using h
    | some c0 =>
      simp only [applyAdjust, adjust_loyalty_points, hrole, hfc, if_neg, if_false,
        reduceIte]
      refine replayOk_step (fun a => rfl) ?_ rfl h
      intro c1 hc1
      have hfc' : findFirst (fun x => x.id == customer_id) db.customers =
          some c0 := hfc
      rw [hfc'] at hc1
      obtain rfl := Option.some.inj hc1
      exact max_eq_right (hcl c0 hfc)

/-- Any loyalty-relevant operation whose adjustments do not clamp preserves
the replay invariant. -/
theorem applyOp_replayOk (cid : String) (op : LoyaltyOp) (db : DB)
    (h : replayOk cid db) (hnc : noClampOp op db) :
    replayOk cid (applyOp op db) := by
  cases op with
  | createOrder o a b c d e => exact applyCreate_replayOk cid o a b c d e db h
  | payment p a b c d e => exact applyPayment_replayOk cid p a b c d e db h
  | adjust cid' n a b c d e => exact applyAdjust_replayOk cid cid' n a b c d e db h hnc

/-- Invariant preservation along any clamp-free trace. -/
theorem applyOps_replayOk (cid : String) : ∀ (ops : List LoyaltyOp) (db : DB),
    replayOk cid db → noClampSeq ops db → replayOk cid (applyOps ops db)
  | [], _, h, _ => h
  | op :: ops, db, h, hnc =>
    applyOps_replayOk cid ops (applyOp op db)
      (applyOp_replayOk cid op db h hnc.1) hnc.2

/-- C5 counterexample: the claim as stated is false. Starting from a freshly
created customer (balance 0, empty ledger — the replay invariant holds), one
manual adjustment of `-10` clamps the balance at 0 but records the raw `-10`
in the ledger, so replaying the ledger yields `-10 ≠ 0`. -/
theorem loyalty_ledger_replay_counterexample :
    replayOk "eve" dbAdj ∧
    ¬ replayOk "eve"
      (applyOps [.adjust "eve" (-10) "refund" "boss" "admin" "tA" "t5"] dbAdj) := by
  constructor
  · intro c hc
    have he : findCustomer dbAdj "eve" = some eve := rfl
    rw [he] at hc
    obtain rfl := Option.some.inj hc
    rfl
  · intro hrep
    have h2 := hrep eve rfl
    revert h2
    decide

/-- C5 amended: the replay invariant (ledger delta sum = stored balance) is
preserved by every sequence of loyalty operations (order-creation redemption,
accrual on completed payment, manual adjustment) **provided no adjustment hits
the `max(0, ·)` clamp**; a manual adjustment always sets
`new_points = max(0, current + delta)` and always appends one `adjustment`
ledger entry, but the entry records the raw delta, which is what breaks the
invariant exactly when the clamp fires. -/
theorem loyalty_ledger_replay_amended :
    (∀ (cid : String) (ops : List LoyaltyOp) (db : DB),
      replayOk cid db → noClampSeq ops db → replayOk cid (applyOps ops db)) ∧
    (∀ (customer_id : String) (n : ℤ) (reason actor role txn now : String)
      (db : DB) (c : Customer),
      (role = "admin" ∨ role = "manager") →
      findCustomer db customer_id = some c →
      ∃ db', adjust_loyalty_points customer_id n reason actor role txn now db =
          .ok (db', c.loyalty_points, max 0 (c.loyalty_points + n)) ∧
        (∃ c', findCustomer db' customer_id = some c' ∧
          c'.loyalty_points = max 0 (c.loyalty_points + n)) ∧
        db'.loyalty_transactions = db.loyalty_transactions ++
          [{ id := txn
             customer_id := customer_id
             order_id := none
             type := .adjustment
             points := n
             description := "Manual adjustment: " ++ reason
             balance_after := max 0 (c.loyalty_points + n)
             created_at := now
             adjusted_by := some actor }]) := by
  constructor
  · exact fun cid ops db h hnc => applyOps_replayOk cid ops db h hnc
  · intro customer_id n reason actor role txn now db c hrole hc
    obtain ⟨⟨db', prev, new⟩, hres⟩ :
        ∃ p, adjust_loyalty_points customer_id n reason actor role txn now db =
          .ok p := by
      simp [adjust_loyalty_points, hrole, hc]
    have hx := hres
    simp [adjust_loyalty_points, hrole, hc] at hx
    obtain ⟨h1, h2, h3⟩ := hx
    subst h1
    subst h2
    subst h3
    refine ⟨_, hres, ?_, rfl⟩
    rw [findCustomer_mk]
    rw [findFirst_updateFirst']
    · have hc' : findFirst (fun x => x.id == customer_id) db.customers = some c := hc
      rw [hc']
      exact ⟨_, rfl, rfl⟩
    · intro a
      rfl

/-- Witness for the amended C5: a clamp-free `+5` adjustment on a fresh
customer keeps the invariant, and the adjustment contract holds concretely. -/
theorem loyalty_ledger_replay_amended_witness :
    replayOk "eve" (applyOps [.adjust "eve" 5 "bonus" "boss" "admin" "tB" "t6"] dbAdj) ∧
    (∃ db', adjust_loyalty_points "eve" 5 "bonus" "boss" "admin" "tB" "t6" dbAdj =
        .ok (db', 0, 5) ∧
      (∃ c', findCustomer db' "eve" = some c' ∧ c'.loyalty_points = 5) ∧
      db'.loyalty_transactions =
        [{ id := "tB"
           customer_id := "eve"
           order_id := none
           type := .adjustment
           points := 5
           description := "Manual adjustment: bonus"
           balance_after := 5
           created_at := "t6"
           adjusted_by := some "boss" }]) := by
  constructor
  · refine loyalty_ledger_replay_amended.1 "eve" _ dbAdj ?_ ?_
    · intro c hc
      have he : findCustomer dbAdj "eve" = some eve := rfl
      rw [he] at hc
      obtain rfl := Option.some.inj hc
      rfl
    · refine ⟨?_, trivial⟩
      intro c hc
      have he : findCustomer dbAdj "eve" = some eve := rfl
      rw [he] at hc
      obtain rfl := Option.some.inj hc
      decide
  · obtain ⟨db', hok, hfound, hledger⟩ :=
      loyalty_ledger_replay_amended.2 "eve" 5 "bonus" "boss" "admin" "tB" "t6"
        dbAdj eve (Or.inl rfl) rfl
    exact ⟨db', hok, hfound, hledger⟩

/-! ## C6 — customer aggregates -/

/-- Effect of any one successful order creation (redeeming or not) on the
customer's aggregate fields: the stats update is identical on both paths. -/
theorem applyCreate_stats (order : OrderCreate) (oid onum now txn cb : String)
    (db : DB) (c : Customer)
    (hc : findCustomer db order.customer_id = some c)
    (db' : DB) (doc : Order)
    (hok : create_order order oid onum now txn cb db = .ok (db', doc)) :
    ∃ c', findCustomer db' order.customer_id = some c' ∧
      c'.total_orders = c.total_orders + 1 ∧
      c'.total_spent = c.total_spent + order.total ∧
      c'.last_order_date = some now ∧
      c'.average_order_value = round2 (if 0 < c.total_orders + 1 then
        (c.total_spent + order.total) / ((c.total_orders : ℚ) + 1) else 0) := by
  have hb : c.is_blacklisted = false := by
    cases hbv : c.is_blacklisted with
    | false => rfl
    | true =>
      rw [show create_order order oid onum now txn cb db = .error .Blacklisted from
        by simp [create_order, hc, hbv]] at hok
      cases hok
  have hnins : ¬ (0 < order.loyalty_points_redeemed ∧
      c.loyalty_points < order.loyalty_points_redeemed) := by
    intro hins
    rw [show create_order order oid onum now txn cb db =
        .error .InsufficientPoints from by simp [create_order, hc, hb, hins]] at hok
    cases hok
  by_cases hr : 0 < order.loyalty_points_redeemed
  · have hcur : ¬ c.loyalty_points < order.loyalty_points_redeemed :=
      fun hh => hnins ⟨hr, hh⟩
    have hx := hok
    simp [create_order, hc, hb, hcur, hr] at hx
    obtain ⟨h1, h2⟩ := hx
    subst h1
    subst h2
    rw [findCustomer_mk]
    rw [findFirst_updateFirst']
    · rw [findFirst_updateFirst']
      · have hc' : findFirst (fun x => x.id == order.customer_id) db.customers =
            some c := hc
        rw [hc']
        simp only [Option.map_some']
        refine ⟨_, rfl, rfl, rfl, rfl, ?_⟩
        simp
      · intro a
        rfl
    · intro a
      rfl
  · have hx := hok
    simp [create_order, hc, hb, hr] at hx
    obtain ⟨h1, h2⟩ := hx
    subst h1
    subst h2
    rw [findCustomer_mk]
    rw [findFirst_updateFirst']
    · have hc' : findFirst (fun x => x.id == order.customer_id) db.customers =
          some c := hc
      rw [hc']
      simp only [Option.map_some']
      refine ⟨_, rfl, rfl, rfl, rfl, ?_⟩
      simp
    · intro a
      rfl

/-- Aggregate `total_orders` grows by exactly one per creation along any batch
of successful order creations (redeeming ones included). -/
theorem createOps_total_orders (cid : String) :
    ∀ (reqs : List OrderCreate) (db : DB) (c : Customer),
    findCustomer db cid = some c →
    (∀ r ∈ reqs, r.customer_id = cid) →
    createSeqOk reqs db →
    ∃ c', findCustomer (applyOps (createOps reqs) db) cid = some c' ∧
      c'.total_orders = c.total_orders + reqs.length
  | [], db, c, hc, _, _ => ⟨c, hc, by simp⟩
  | r :: reqs, db, c, hc, hall, hsok => by
    obtain ⟨⟨⟨db1, doc⟩, hok⟩, hrest⟩ := hsok
    have hcid := hall r (List.mem_cons_self _ _)
    obtain ⟨c1, hf1, ht1, -, -, -⟩ :=
      applyCreate_stats r "" "" "" "" "" db c (hcid ▸ hc) db1 doc hok
    have happ : applyCreate r "" "" "" "" "" db = db1 := by
      simp [applyCreate, hok]
    obtain ⟨c', hf', ht'⟩ :=
      createOps_total_orders cid reqs (applyCreate r "" "" "" "" "" db) c1
        (by rw [happ]; exact hcid ▸ hf1)
        (fun x hx => hall x (List.mem_cons_of_mem _ hx)) hrest
    refine ⟨c', hf', ?_⟩
    rw [ht', ht1]
    simp
    omega

unseal Rat.mul Rat.inv Rat.add Rat.sub in
/-- C6 counterexample: after three orders with totals 1, 0, 0 the stored
`average_order_value` is the rounded `0.33`, not `total_spent / total_orders
= 1/3`, so the claim's exact invariant fails on the code (which stores
`round(·, 2)`). -/
theorem customer_aggregates_counterexample :
    ∃ c', findCustomer (applyOps (createOps
        [reqFor "frank" 1, reqFor "frank" 0, reqFor "frank" 0]) dbAvg) "frank" =
        some c' ∧
      0 < c'.total_orders ∧
      c'.average_order_value ≠ c'.total_spent / (c'.total_orders : ℚ) := by
  refine ⟨_, rfl, by decide, by decide⟩

/-- C6 amended: every successful order creation — with or without a loyalty
redemption — increments `total_orders`, adds the order total to
`total_spent`, sets `last_order_date`, and stores `average_order_value =
round(total_spent / total_orders, 2)` (rounded to two decimals — not the
exact quotient); after N successful creations `total_orders` has grown
by N. -/
theorem customer_aggregates_amended :
    (∀ (order : OrderCreate) (oid onum now txn cb : String) (db : DB)
      (c : Customer) (db' : DB) (doc : Order),
      findCustomer db order.customer_id = some c →
      0 ≤ c.total_orders →
      create_order order oid onum now txn cb db = .ok (db', doc) →
      ∃ c', findCustomer db' order.customer_id = some c' ∧
        c'.total_orders = c.total_orders + 1 ∧
        c'.total_spent = c.total_spent + order.total ∧
        c'.last_order_date = some now ∧
        c'.average_order_value =
          round2 ((c.total_spent + order.total) / ((c.total_orders : ℚ) + 1))) ∧
    (∀ (cid : String) (reqs : List OrderCreate) (db : DB) (c : Customer),
      findCustomer db cid = some c →
      (∀ r ∈ reqs, r.customer_id = cid) →
      createSeqOk reqs db →
      ∃ c', findCustomer (applyOps (createOps reqs) db) cid = some c' ∧
        c'.total_orders = c.total_orders + reqs.length) := by
  constructor
  · intro order oid onum now txn cb db c db' doc hc hto hok
    obtain ⟨c', hf, ht, hs, hl, havg⟩ :=
      applyCreate_stats order oid onum now txn cb db c hc db' doc hok
    rw [if_pos (by omega)] at havg
    exact ⟨c', hf, ht, hs, hl, havg⟩
  · intro cid reqs db c hc hall hsok
    exact createOps_total_orders cid reqs db c hc hall hsok

unseal Rat.mul Rat.inv Rat.add Rat.sub in
/-- Witness for the amended C6: Carol's order redeeming 30 points still runs
the stats update (orders 1, spent $10, rounded average), and three successful
creations for Frank leave `total_orders = 3`. -/
theorem customer_aggregates_amended_witness :
    (∃ db' doc, create_order { reqFor "carol" 10 with loyalty_points_redeemed := 30 }
        "oB" "DCB" "tD" "txD" "u1" dbOrders = .ok (db', doc) ∧
      ∃ c', findCustomer db' "carol" = some c' ∧
        c'.total_orders = 1 ∧
        c'.total_spent = 0 + 10 ∧
        c'.last_order_date = some "tD" ∧
        c'.average_order_value = round2 ((0 + 10) / ((0 : ℚ) + 1))) ∧
    (∃ c', findCustomer (applyOps (createOps
        [reqFor "frank" 1, reqFor "frank" 0, reqFor "frank" 0]) dbAvg) "frank" =
        some c' ∧
      c'.total_orders = 3) := by
  constructor
  · obtain ⟨⟨db1, doc⟩, hp⟩ :
        ∃ p, create_order { reqFor "carol" 10 with loyalty_points_redeemed := 30 }
          "oB" "DCB" "tD" "txD" "u1" dbOrders = .ok p := ⟨_, rfl⟩
    obtain ⟨c', hf, ht, hs, hl, havg⟩ := customer_aggregates_amended.1
      { reqFor "carol" 10 with loyalty_points_redeemed := 30 }
      "oB" "DCB" "tD" "txD" "u1" dbOrders carol db1 doc rfl (by decide) hp
    exact ⟨db1, doc, hp, c', hf, ht, hs, hl, havg⟩
  · obtain ⟨c', hf, ht⟩ := customer_aggregates_amended.2 "frank"
      [reqFor "frank" 1, reqFor "frank" 0, reqFor "frank" 0] dbAvg frank rfl
      (by decide) ⟨⟨_, rfl⟩, ⟨_, rfl⟩, ⟨_, rfl⟩, trivial⟩
    exact ⟨c', hf, ht⟩

end DryCleaning
